import Mathlib

/-!
Shallow embedding of the SIH attendance application (`app.py`), covering the
in-memory document store (`InMemoryDB`), the timed-token codec
(`URLSafeTimedSerializer` usage), and the marking / statistics request
handlers.  Python dictionaries are modelled as insertion-ordered association
lists, `ObjectId`s by natural numbers (two ObjectIds are equal iff their
string forms are equal, so `Nat` equality is faithful), and clock readings
(`time.time()`, `datetime.utcnow()`) by natural-number seconds.

Dynamic Python values are modelled by a stratified type that covers every
value shape this application stores in a collection or mentions in a query:
primitives (strings, numbers), flat dictionaries (attendance records, the
body of an `$elemMatch` operator), dictionaries whose values are flat
dictionaries (the `{"records": {"$elemMatch": ...}}` query value), and lists
of record dictionaries (the `records` field of a day document).  Python `==`
between values of different shapes (a list and a dict, a dict and a string,
...) is `False`; the stratified constructors reproduce exactly that.  The
two deliberate coarsenings are harmless here: (a) Python dict equality
ignores key order while association-list equality does not — but the only
dict-against-dict comparison the code could ever attempt (a query's
`$elemMatch` wrapper against a stored field) compares a dict against the
stored `records` *list*, which is `False` on both sides; (b) a stored string
could in principle be compared against the string form of an ObjectId — but
`user_id` fields are always stored as ObjectIds by this code.
-/

namespace SIH

/-- A primitive stored value: a string or a number (`ObjectId`s and
timestamps collapse to `Nat`). -/
inductive Prim where
  | str (s : String)
  | nat (n : Nat)
deriving DecidableEq, Repr

/-- A field value one level down: a primitive, or a flat dictionary of
primitives (the body of an `$elemMatch` operator). -/
inductive FVal where
  | prim (p : Prim)
  | pdict (kvs : List (String × Prim))
deriving DecidableEq, Repr

/-- An attendance record as stored inside a day document's `records` list:
a flat dictionary (`user_id`, `username`, `timestamp`, `checkpoint`,
`method`, each primitive-valued). -/
abbrev Rec := List (String × FVal)

/-- A top-level document field value. -/
inductive Val where
  | prim (p : Prim)
  | vdict (kvs : List (String × FVal))
  | vlist (xs : List Rec)
deriving DecidableEq, Repr

/-- Shorthand for a string value. -/
def Val.str (s : String) : Val := .prim (.str s)

/-- Shorthand for a numeric (ObjectId / timestamp) value. -/
def Val.nat (n : Nat) : Val := .prim (.nat n)

/-- A document: a Python dict with string keys, insertion-ordered. -/
abbrev Doc := List (String × Val)

namespace InMemoryDB

/-- One key-value pair of a query, matched against a document exactly as the
loop body of `InMemoryDB.find_one` / `find` / `update_one` does
(`app.py:65-90`): the key must be present in the document and the stored
value must equal the query value under Python `==`.  The special `_id`
branch of the source compares `str(doc['_id'])` with `str(value)`, which on
ObjectIds (modelled as `Nat`) coincides with plain equality.  Note that for
the duplicate-check query `{"records": {"$elemMatch": ...}}` the stored
value is a list (`Val.vlist`) and the query value a dict (`Val.vdict`), so
the pair never matches: this in-memory store does not interpret
`$elemMatch`. -/
def kvMatches (doc : Doc) (kv : String × Val) : Bool :=
  match doc.lookup kv.1 with
  | none => false
  | some v => v == kv.2

/-- Whether a document matches every key-value pair of a query
(the `for key, value in query.items()` loop of `app.py:65-90`). -/
def docMatches (query : Doc) (doc : Doc) : Bool :=
  query.all (kvMatches doc)

/-- `InMemoryDB.find_one` (`app.py:65-90`): the first document of the
collection matching the query (the source returns `doc.copy()`, which is
value-equal to the document itself). -/
def find_one (coll : List Doc) (query : Doc) : Option Doc :=
  coll.find? (docMatches query)

/-- `InMemoryDB.find` (`app.py:92-119`): all documents matching the query,
in collection order. -/
def find (coll : List Doc) (query : Doc) : List Doc :=
  coll.filter (docMatches query)

/-- `InMemoryDB.count_documents` (`app.py:181-184`). -/
def count_documents (coll : List Doc) (query : Doc) : Nat :=
  (find coll query).length

/-- Python dict assignment `doc[f] = v`: replace the value at an existing
key in place, or append the key at the end. -/
def setField : Doc → String → Val → Doc
  | [], f, v => [(f, v)]
  | (k, w) :: rest, f, v =>
      if k == f then (k, v) :: rest else (k, w) :: setField rest f v

/-- The `$push` branch of `InMemoryDB.update_one` (`app.py:163-168`) applied
to a matched document: `if field not in doc: doc[field] = []` followed by
`doc[field].append(new_value)`.  All `$push` call sites in `app.py` push an
attendance record onto the `records` field.  If the field held a non-list
value Python would raise `AttributeError`; that never happens on the states
this application builds (day documents always hold a list under `records`,
see `DB.wf` below), and the model leaves the document unchanged there. -/
def applyPush (doc : Doc) (f : String) (r : Rec) : Doc :=
  match doc.lookup f with
  | none => setField doc f (Val.vlist [r])
  | some (Val.vlist xs) => setField doc f (Val.vlist (xs ++ [r]))
  | some _ => doc

/-- The matched-document scan of `InMemoryDB.update_one` (`app.py:141-169`):
apply the `$push` to the first matching document, in place; `none` when no
document matches. -/
def updateFirst (query : Doc) (f : String) (r : Rec) : List Doc → Option (List Doc)
  | [] => none
  | d :: ds =>
      if docMatches query d then some (applyPush d f r :: ds)
      else (updateFirst query f r ds).map (d :: ·)

/-- `InMemoryDB.insert_one` (`app.py:121-130`): assign a fresh `_id` when
the document has none (the source draws a fresh random `ObjectId()`,
modelled by the collection counter) and append the document at the end of
the insertion-ordered collection. -/
def insert_one (coll : List Doc) (doc : Doc) (nextId : Nat) :
    List Doc × Nat :=
  let doc' := if (doc.lookup "_id").isSome then doc
              else doc ++ [("_id", Val.nat nextId)]
  (coll ++ [doc'], nextId + 1)

/-- `InMemoryDB.update_one` (`app.py:139-179`) for the `$push` update form
used by every call site: push onto the first matching document, else (with
`upsert=True`) insert `query.copy()` with the pushed field set to a
one-element list.  Returns the new collection and the fresh-id counter. -/
def update_one (coll : List Doc) (query : Doc) (f : String) (r : Rec)
    (upsert : Bool) (nextId : Nat) : List Doc × Nat :=
  match updateFirst query f r coll with
  | some coll' => (coll', nextId)
  | none =>
      if upsert then insert_one coll (setField query f (Val.vlist [r])) nextId
      else (coll, nextId)

end InMemoryDB

/-- `Config` / `app.config`: the token time-to-live in seconds
(`TOKEN_VALIDITY_SECONDS = 5`; `api_mark_attendance` reads it with a default
of 15 that is never used because `Config` defines the key). -/
def TOKEN_VALIDITY_SECONDS : Nat := 5

/-- The attendance checkpoints (`CHECKPOINTS`, `app.py:253`). -/
def CHECKPOINTS : List String := ["Period 1", "Period 2", "Period 3", "Period 4"]

/-- The payload serialized into a QR token by `handle_qr_request`
(`app.py:491`): `{'date': ..., 'checkpoint': ..., 'ts': time.time()}`. -/
structure Payload where
  date : String
  checkpoint : String
  ts : Nat
deriving DecidableEq, Repr

/-- A token produced (or forged) in the `URLSafeTimedSerializer` format:
a payload, the signing timestamp the serializer embeds at `dumps` time, and
a message authentication code over (secret, payload, signing timestamp).
The MAC is modelled symbolically (Dolev-Yao style): a genuine MAC is
exactly the signed triple, and verification succeeds iff the token's MAC
equals the triple rebuilt with the server secret — capturing that a
signature over different data or under a different secret never verifies,
and abstracting from the HMAC implementation of `itsdangerous`. -/
structure Token where
  payload : Payload
  signTime : Nat
  mac : String × Payload × Nat
deriving DecidableEq, Repr

/-- `serializer.dumps(payload)` at clock time `now`: serialize and sign. -/
def dumps (secret : String) (p : Payload) (now : Nat) : Token :=
  ⟨p, now, (secret, p, now)⟩

/-- The two failures `serializer.loads` can raise that `api_mark_attendance`
distinguishes (`itsdangerous`): `SignatureExpired` (a valid signature older
than `max_age`) and `BadTimeSignature` (an invalid signature). -/
inductive LoadsError where
  | signatureExpired
  | badTimeSignature
deriving DecidableEq, Repr

/-- `serializer.loads(token, max_age=...)` at clock time `now`: check the
signature first (`BadTimeSignature` on mismatch), then the age of the
signing timestamp against `max_age` (`SignatureExpired` when
`now - signTime > max_age`), and return the payload. -/
def loads (secret : String) (maxAge : Nat) (now : Nat) (t : Token) :
    Except LoadsError Payload :=
  if t.mac = (secret, t.payload, t.signTime) then
    if now - t.signTime > maxAge then .error .signatureExpired
    else .ok t.payload
  else .error .badTimeSignature

/-- `handle_qr_request` (`app.py:487-493`), reduced to the token it encodes
into the QR image: returns nothing when `date` or `checkpoint` is falsy
(absent or empty), else signs `{'date': date, 'checkpoint': checkpoint,
'ts': now}` at clock time `now`. -/
def handle_qr_request (secret : String) (date checkpoint : Option String)
    (now : Nat) : Option Token :=
  match date, checkpoint with
  | some d, some c =>
      if d.isEmpty || c.isEmpty then none
      else some (dumps secret ⟨d, c, now⟩ now)
  | _, _ => none

/-- The in-memory database state: the `users` and `attendance` collections
plus the fresh-id counter standing in for `ObjectId()` generation. -/
structure DB where
  users : List Doc
  attendance : List Doc
  latest_id : Nat
deriving DecidableEq, Repr

/-- A JSON response from a marking endpoint: the `success` flag, the
`message` / `error` string, and the HTTP status code (200 unless the
source pairs the body with an explicit code). -/
structure Response where
  success : Bool
  message : String
  status : Nat
deriving DecidableEq, Repr

/-- The event dict broadcast on the `student_checked_in` socket channel
(`app.py:525-529`): the new record's fields with the timestamp formatted
`%I:%M:%S %p`, plus the date. -/
structure Event where
  user_id : Nat
  username : String
  timestamp : String
  checkpoint : String
  method : String
  date : String
deriving DecidableEq, Repr

/-- Zero-padded two-digit rendering used by `strftime`. -/
def two (n : Nat) : String :=
  if n < 10 then "0" ++ toString n else toString n

/-- `datetime.strftime('%I:%M:%S %p')` on a UTC epoch-second clock reading:
12-hour clock with AM/PM. -/
def fmtTimestamp (t : Nat) : String :=
  let secOfDay := t % 86400
  let h24 := secOfDay / 3600
  let m := (secOfDay % 3600) / 60
  let s := secOfDay % 60
  let h12 := if h24 % 12 == 0 then 12 else h24 % 12
  let ampm := if h24 < 12 then "AM" else "PM"
  two h12 ++ ":" ++ two m ++ ":" ++ two s ++ " " ++ ampm

/-- The `{"date": date}` query used for day-document lookup and upsert. -/
def dateQuery (d : String) : Doc := [("date", Val.str d)]

/-- The duplicate-check query of `api_mark_attendance` / `manual_mark` /
`manual_bulk_mark`:
`{"date": date, "records": {"$elemMatch": {"user_id": ..., "checkpoint":
...}}}`. -/
def dupQuery (d : String) (uid : Nat) (cp : String) : Doc :=
  [("date", Val.str d),
   ("records", Val.vdict [("$elemMatch",
      FVal.pdict [("user_id", Prim.nat uid), ("checkpoint", Prim.str cp)])])]

/-- The `new_record` dict built by the marking endpoints. -/
def newRecordDoc (uid : Nat) (username : String) (now : Nat)
    (cp method : String) : Rec :=
  [("user_id", FVal.prim (.nat uid)), ("username", FVal.prim (.str username)),
   ("timestamp", FVal.prim (.nat now)), ("checkpoint", FVal.prim (.str cp)),
   ("method", FVal.prim (.str method))]

/-- The `student_checked_in` event for a freshly appended record. -/
def mkEvent (uid : Nat) (username : String) (now : Nat)
    (cp method date : String) : Event :=
  ⟨uid, username, fmtTimestamp now, cp, method, date⟩

/-- The `username` field of a user document (`student_data["username"]`;
user documents always carry a string username, so the fallback is
unreachable). -/
def usernameOf (doc : Doc) : String :=
  match doc.lookup "username" with
  | some (Val.prim (.str s)) => s
  | _ => ""

/-- Append a record to the attendance collection the way every marking
endpoint does (`app.py:520-523`): `update_one({"date": date},
{"$push": {"records": new_record}}, upsert=True)`. -/
def DB.pushRecord (db : DB) (d : String) (r : Rec) : DB :=
  let res := InMemoryDB.update_one db.attendance (dateQuery d) "records" r
      true db.latest_id
  ⟨db.users, res.1, res.2⟩

/-- Outcome of a marking request: the JSON response, the database state on
return, and the `student_checked_in` events actually delivered. -/
structure MarkOutcome where
  response : Response
  db : DB
  events : List Event
deriving DecidableEq, Repr

/-- `api_mark_attendance` (`app.py:495-536`), the token marking endpoint,
for the logged-in principal `(uid, username)` at clock time `now`.  The
three `Bool` flags inject exceptions from the external collaborators inside
the `try` block — the store driver raising on the duplicate-check read
(`findFault`) or on the append (`pushFault`), and the socket broadcast
raising (`emitFault`); with all flags `false` this is exactly the in-memory
execution.  Any such exception is caught by `except (BadTimeSignature,
Exception)` and reported as `'Invalid QR Code.'`; an exception raised after
the append does not undo it (the store is global mutable state). -/
def api_mark_attendance (secret : String) (uid : Nat) (username : String)
    (token : Option Token) (now : Nat) (db : DB)
    (findFault pushFault emitFault : Bool) : MarkOutcome :=
  match token with
  | none => ⟨⟨false, "Token is missing.", 400⟩, db, []⟩
  | some t =>
    match loads secret TOKEN_VALIDITY_SECONDS now t with
    | .error .signatureExpired => ⟨⟨false, "QR Code has expired.", 400⟩, db, []⟩
    | .error .badTimeSignature => ⟨⟨false, "Invalid QR Code.", 400⟩, db, []⟩
    | .ok payload =>
      if findFault then ⟨⟨false, "Invalid QR Code.", 400⟩, db, []⟩
      else
        match InMemoryDB.find_one db.attendance
            (dupQuery payload.date uid payload.checkpoint) with
        | some _ =>
            ⟨⟨false, "Attendance already marked for " ++ payload.checkpoint
              ++ ".", 409⟩, db, []⟩
        | none =>
          if pushFault then ⟨⟨false, "Invalid QR Code.", 400⟩, db, []⟩
          else
            let newRec := newRecordDoc uid username now payload.checkpoint "QR"
            let db' := db.pushRecord payload.date newRec
            if emitFault then ⟨⟨false, "Invalid QR Code.", 400⟩, db', []⟩
            else ⟨⟨true, "Attendance marked successfully!", 200⟩, db',
              [mkEvent uid username now payload.checkpoint "QR" payload.date]⟩

/-- The body of `manual_mark` after validation succeeds (`app.py:553-579`):
duplicate check, append, broadcast (`student_data` is the user document the
validation step fetched). -/
def manual_mark_core (sid : Nat) (student_data : Doc) (d cp : String)
    (now : Nat) (db : DB) : MarkOutcome :=
  match InMemoryDB.find_one db.attendance (dupQuery d sid cp) with
  | some _ =>
      ⟨⟨false, usernameOf student_data ++ " already marked for " ++ cp
        ++ ".", 409⟩, db, []⟩
  | none =>
      let newRec := newRecordDoc sid (usernameOf student_data) now cp "Manual"
      let db' := db.pushRecord d newRec
      ⟨⟨true, usernameOf student_data, 200⟩, db',
        [mkEvent sid (usernameOf student_data) now cp "Manual" d]⟩

/-- `manual_mark` (`app.py:538-579`), the teacher manual-marking endpoint:
role check, missing-field check (`if not all([student_id, date,
checkpoint])`, where an absent or empty value is falsy), student lookup by
`_id`, then `manual_mark_core`.  The `student_id` is modelled as the
`ObjectId` it is parsed into. -/
def manual_mark (role : String) (student_id : Option Nat)
    (date checkpoint : Option String) (now : Nat) (db : DB) : MarkOutcome :=
  if role != "teacher" then ⟨⟨false, "Unauthorized", 403⟩, db, []⟩
  else
    match student_id, date, checkpoint with
    | some sid, some d, some cp =>
        if d.isEmpty || cp.isEmpty then ⟨⟨false, "Missing data.", 400⟩, db, []⟩
        else
          match InMemoryDB.find_one db.users [("_id", Val.nat sid)] with
          | none => ⟨⟨false, "Student not found", 404⟩, db, []⟩
          | some student_data => manual_mark_core sid student_data d cp now db
    | _, _, _ => ⟨⟨false, "Missing data.", 400⟩, db, []⟩

/-- Outcome of the bulk endpoint: the response (with the accumulated
`updated` and `skipped` username lists on success), the database state, and
the delivered events. -/
structure BulkOutcome where
  success : Bool
  error : String
  status : Nat
  updated : List String
  skipped : List String
  db : DB
  events : List Event
deriving DecidableEq, Repr

/-- One iteration of the `for sid in student_ids` loop of
`manual_bulk_mark` (`app.py:593-623`): unknown student → skipped as
`"ID:" ++ sid`; duplicate found → skipped by username; otherwise append the
record, accumulate the username into `updated`, and broadcast.  (Student
ids print as their decimal model form.) -/
def bulkStep (d cp : String) (now : Nat)
    (acc : DB × List String × List String × List Event) (sid : Nat) :
    DB × List String × List String × List Event :=
  let (db, updated, skipped, evs) := acc
  match InMemoryDB.find_one db.users [("_id", Val.nat sid)] with
  | none => (db, updated, skipped ++ ["ID:" ++ toString sid], evs)
  | some student_data =>
      match InMemoryDB.find_one db.attendance (dupQuery d sid cp) with
      | some _ => (db, updated, skipped ++ [usernameOf student_data], evs)
      | none =>
          let newRec := newRecordDoc sid (usernameOf student_data) now cp
            "Manual"
          (db.pushRecord d newRec, updated ++ [usernameOf student_data],
           skipped,
           evs ++ [mkEvent sid (usernameOf student_data) now cp "Manual" d])

/-- `manual_bulk_mark` (`app.py:581-625`): role check, missing-data check
(`student_ids` defaults to `[]` and an empty list is falsy), then the
per-student loop accumulating `updated` / `skipped`. -/
def manual_bulk_mark (role : String) (student_ids : List Nat)
    (date checkpoint : Option String) (now : Nat) (db : DB) : BulkOutcome :=
  if role != "teacher" then ⟨false, "Unauthorized", 403, [], [], db, []⟩
  else
    match date, checkpoint with
    | some d, some cp =>
        if student_ids.isEmpty || d.isEmpty || cp.isEmpty then
          ⟨false, "Missing data", 400, [], [], db, []⟩
        else
          let res := student_ids.foldl (bulkStep d cp now) (db, [], [], [])
          ⟨true, "", 200, res.2.1, res.2.2.1, res.1, res.2.2.2⟩
    | _, _ => ⟨false, "Missing data", 400, [], [], db, []⟩

/-- Python `round` at 0 decimals: round-half-to-even (banker's rounding). -/
def roundHalfEven (q : ℚ) : ℤ :=
  let f := ⌊q⌋
  let r := q - f
  if r < 1/2 then f
  else if 1/2 < r then f + 1
  else if f % 2 = 0 then f else f + 1

/-- Python `round(x, 2)`: round-half-to-even at two decimal places. -/
def roundPy2 (q : ℚ) : ℚ := (roundHalfEven (q * 100) : ℚ) / 100

/-- The `records` list of a day document, as `day.get('records', [])` reads
it (day documents always hold a list under `records`, see `DB.wf`). -/
def recordsOf (doc : Doc) : List Rec :=
  match doc.lookup "records" with
  | some (Val.vlist xs) => xs
  | _ => []

/-- The per-record test of the `student_stats` loops (`app.py:340,354`):
`str(record.get('user_id')) == str(student_id)`.  `user_id` fields are
always stored as ObjectIds, on which the string comparison coincides with
equality; a missing field gives `str(None)`, which matches no ObjectId. -/
def recordBelongsTo (uid : Nat) (r : Rec) : Bool :=
  r.lookup "user_id" == some (FVal.prim (.nat uid))

/-- The result of `student_stats` (`app.py:324-363`): either the 403 error
or the statistics payload. -/
inductive StatsOut where
  | err (error : String) (status : Nat)
  | ok (percentage : ℚ) (classes_today : Nat) (total_classes_today : Nat)
      (emergency_contacts : Nat)
deriving DecidableEq, Repr

/-- The percentage field of a `StatsOut`, when present. -/
def StatsOut.percentageOf : StatsOut → Option ℚ
  | .err _ _ => none
  | .ok p _ _ _ => some p

/-- `student_stats` (`app.py:324-363`) for the logged-in principal
`(role, uid)` with today's date `today`: teachers get 403; otherwise count
the principal's records over all day documents, divide by
`len(CHECKPOINTS) * max(1, len(all_attendance))`, scale to a percentage and
round to two decimals (0 if the denominator were non-positive), and count
today's records. -/
def student_stats (role : String) (uid : Nat) (today : String) (db : DB) :
    StatsOut :=
  if role == "teacher" then .err "Unauthorized" 403
  else
    let total_checkpoints := CHECKPOINTS.length
    let all_attendance := InMemoryDB.find db.attendance []
    let attended_checkpoints := all_attendance.foldl
      (fun acc day => acc + ((recordsOf day).filter (recordBelongsTo uid)).length) 0
    let total_possible := total_checkpoints * max 1 all_attendance.length
    let percentage : ℚ :=
      if 0 < total_possible then
        roundPy2 ((attended_checkpoints : ℚ) / (total_possible : ℚ) * 100)
      else 0
    let classes_today :=
      match InMemoryDB.find_one db.attendance (dateQuery today) with
      | some doc => ((recordsOf doc).filter (recordBelongsTo uid)).length
      | none => 0
    .ok percentage classes_today CHECKPOINTS.length 5

/-- Modelled from the spec (§8): the student's attended-checkpoint-count —
the number of attendance records belonging to the student across all day
documents. -/
def attendedCheckpointCount (uid : Nat) (db : DB) : Nat :=
  (db.attendance.map
    (fun day => ((recordsOf day).filter (recordBelongsTo uid)).length)).sum

/-- Modelled from the spec (§8): the total-possible-checkpoint-count — the
number of checkpoints per day times the number of attendance days (at least
one). -/
def totalPossibleCheckpointCount (db : DB) : Nat :=
  CHECKPOINTS.length * max 1 db.attendance.length

/-- Modelled from the spec (§8): attended-checkpoint-count divided by
total-possible-checkpoint-count, times 100, rounded to 2 decimals, and 0
when the total-possible-checkpoint-count is 0. -/
def specPercentage (uid : Nat) (db : DB) : ℚ :=
  if totalPossibleCheckpointCount db = 0 then 0
  else roundPy2 ((attendedCheckpointCount uid db : ℚ) /
        (totalPossibleCheckpointCount db : ℚ) * 100)

/-- Observation: the number of records for the triple `(d, uid, cp)` inside
one day document (0 unless the document's `date` field is `d`). -/
def docTripleCount (d : String) (uid : Nat) (cp : String) (doc : Doc) : Nat :=
  if doc.lookup "date" == some (Val.str d) then
    ((recordsOf doc).filter fun r =>
      r.lookup "user_id" == some (FVal.prim (.nat uid)) &&
      r.lookup "checkpoint" == some (FVal.prim (.str cp))).length
  else 0

/-- Observation: the number of records for the triple `(d, uid, cp)` across
the attendance collection. -/
def tripleCount (db : DB) (d : String) (uid : Nat) (cp : String) : Nat :=
  (db.attendance.map (docTripleCount d uid cp)).sum

/-- Observation: the record `r` is stored in some day document for date `d`. -/
def recordIn (db : DB) (d : String) (r : Rec) : Bool :=
  db.attendance.any fun doc =>
    doc.lookup "date" == some (Val.str d) && decide (r ∈ recordsOf doc)

/-- Well-formedness of a day document: its `records` field, if present,
holds a list.  Every document the application's append path writes
satisfies this. -/
def recordsWF (doc : Doc) : Bool :=
  match doc.lookup "records" with
  | some (Val.vlist _) => true
  | some _ => false
  | none => true

/-- Well-formedness of a database state. -/
def DB.wf (db : DB) : Bool := db.attendance.all recordsWF

/-- The key `(user_id, checkpoint)` of a stored record, when both fields
are present with their expected shapes. -/
def recKey (r : Rec) : Option (Nat × String) :=
  match r.lookup "user_id", r.lookup "checkpoint" with
  | some (FVal.prim (.nat uid)), some (FVal.prim (.str cp)) => some (uid, cp)
  | _, _ => none

/-- A day document is duplicate-free when no `(user_id, checkpoint)` key
occurs twice in its `records` list. -/
def dayDupFree (doc : Doc) : Bool :=
  decide (((recordsOf doc).filterMap recKey).Nodup)

/-- A database state satisfies the at-most-one-record-per-triple invariant
when every day document is duplicate-free. -/
def DB.dupFree (db : DB) : Bool := db.attendance.all dayDupFree

/-! ## Concrete fixtures used by witnesses and counterexamples -/

/-- A registered student (the demo user `student1`, ObjectId modelled as 2). -/
def studentOneDoc : Doc :=
  [("_id", Val.nat 2), ("username", Val.str "student1"),
   ("password", Val.str "h"), ("role", Val.str "student")]

/-- A store with one registered student and no attendance records. -/
def dbNoRecords : DB := ⟨[studentOneDoc], [], 100⟩

/-- A genuine token for (date 2025-01-10, checkpoint Period 1) issued at
clock time 0 under secret `"k"`. -/
def tokPeriod1 : Token := dumps "k" ⟨"2025-01-10", "Period 1", 0⟩ 0

/-- The attendance record the token path writes for `student1` at clock
time 3. -/
def recP1 : Rec := newRecordDoc 2 "student1" 3 "Period 1" "QR"

/-- A day document holding exactly `recP1`. -/
def dayDocP1 : Doc :=
  [("date", Val.str "2025-01-10"), ("records", Val.vlist [recP1]),
   ("_id", Val.nat 100)]

/-- A store where `student1` already has a record for
(2025-01-10, Period 1). -/
def dbExisting : DB := ⟨[studentOneDoc], [dayDocP1], 101⟩

/-! ## General lemmas about the store operations -/

namespace InMemoryDB

theorem docMatches_nil (doc : Doc) : docMatches [] doc = true := rfl

theorem find_nil_query (coll : List Doc) : find coll [] = coll := by
  simp [find, docMatches]

theorem lookup_setField (f k : String) (v : Val) : ∀ doc : Doc,
    (setField doc f v).lookup k = if k == f then some v else doc.lookup k
  | [] => by cases hb : (k == f) <;> simp [setField, List.lookup, hb]
  | (k', w) :: rest => by
      have ih := lookup_setField f k v rest
      by_cases h1 : k' = f
      · subst h1
        by_cases h3 : k = k'
        · subst h3; simp [setField, List.lookup]
        · simp [setField, List.lookup, beq_eq_false_iff_ne.mpr h3]
      · by_cases h2 : k = k'
        · subst h2
          simp [setField, List.lookup, beq_eq_false_iff_ne.mpr h1]
        · simp [setField, List.lookup, beq_eq_false_iff_ne.mpr h1,
            beq_eq_false_iff_ne.mpr h2, ih]

theorem docMatches_dateQuery (d : String) (doc : Doc) :
    docMatches (dateQuery d) doc =
      (doc.lookup "date" == some (Val.str d)) := by
  simp only [docMatches, dateQuery, List.all_cons, List.all_nil,
    Bool.and_true, kvMatches]
  cases doc.lookup "date" <;> simp

theorem find_one_split (q : Doc) : ∀ (coll : List Doc) (doc : Doc),
    find_one coll q = some doc →
    ∃ pre post, coll = pre ++ doc :: post ∧
      (∀ x ∈ pre, docMatches q x = false) ∧ docMatches q doc = true
  | [], doc => by simp [find_one]
  | d :: ds, doc => by
      intro h
      by_cases hd : docMatches q d
      · rw [find_one, List.find?_cons_of_pos _ hd] at h
        obtain rfl : d = doc := Option.some_inj.mp h
        exact ⟨[], ds, rfl, by simp, hd⟩
      · rw [find_one, List.find?_cons_of_neg _ hd] at h
        obtain ⟨pre, post, hsplit, hpre, hdoc⟩ := find_one_split q ds doc h
        refine ⟨d :: pre, post, by simp [hsplit], ?_, hdoc⟩
        intro x hx
        rcases List.mem_cons.mp hx with hx | hx
        · subst hx; exact Bool.not_eq_true _ ▸ eq_false_of_ne_true hd
        · exact hpre x hx

theorem updateFirst_eq_none (q : Doc) (f : String) (r : Rec) :
    ∀ (coll : List Doc), (∀ x ∈ coll, docMatches q x = false) →
      updateFirst q f r coll = none
  | [], _ => rfl
  | d :: ds, h => by
      have hd := h d (by simp)
      have ih := updateFirst_eq_none q f r ds
        (fun x hx => h x (List.mem_cons_of_mem d hx))
      simp [updateFirst, hd, ih]

theorem updateFirst_append_first (q : Doc) (f : String) (r : Rec)
    (doc : Doc) (post : List Doc) (hdoc : docMatches q doc = true) :
    ∀ pre : List Doc, (∀ x ∈ pre, docMatches q x = false) →
      updateFirst q f r (pre ++ doc :: post) =
        some (pre ++ applyPush doc f r :: post)
  | [], _ => by simp [updateFirst, hdoc]
  | d :: pre', h => by
      have hd := h d (by simp)
      have ih := updateFirst_append_first q f r doc post hdoc pre'
        (fun x hx => h x (List.mem_cons_of_mem d hx))
      simp [updateFirst, hd, ih]

theorem find_one_append (q : Doc) (l₁ l₂ : List Doc) :
    find_one (l₁ ++ l₂) q = (find_one l₁ q).or (find_one l₂ q) := by
  simp [find_one, List.find?_append]

theorem update_one_cons_nomatch (q : Doc) (f : String) (r : Rec)
    (d0 : Doc) (ds : List Doc) (nid : Nat) (h : docMatches q d0 = false) :
    update_one (d0 :: ds) q f r true nid =
      (d0 :: (update_one ds q f r true nid).1,
       (update_one ds q f r true nid).2) := by
  rw [update_one, update_one, updateFirst]
  cases hu : updateFirst q f r ds
  · simp [h, hu, insert_one]
  · simp [h, hu]

theorem update_one_cons_match (q : Doc) (f : String) (r : Rec)
    (d0 : Doc) (ds : List Doc) (nid : Nat) (h : docMatches q d0 = true) :
    update_one (d0 :: ds) q f r true nid = (applyPush d0 f r :: ds, nid) := by
  rw [update_one, updateFirst]
  simp [h]

end InMemoryDB

theorem lookup_setField_records_date (doc : Doc) (v : Val) :
    (InMemoryDB.setField doc "records" v).lookup "date" = doc.lookup "date" := by
  rw [InMemoryDB.lookup_setField]
  rfl

theorem recordsOf_setField_records (doc : Doc) (xs : List Rec) :
    recordsOf (InMemoryDB.setField doc "records" (Val.vlist xs)) = xs := by
  rw [recordsOf, InMemoryDB.lookup_setField]
  rfl

theorem docTripleCount_applyPush_le (dd : String) (uu : Nat) (cc : String)
    (doc : Doc) (r : Rec) :
    docTripleCount dd uu cc doc ≤
      docTripleCount dd uu cc (InMemoryDB.applyPush doc "records" r) := by
  rw [InMemoryDB.applyPush]
  cases hl : doc.lookup "records" with
  | none =>
      have hold : docTripleCount dd uu cc doc ≤
          docTripleCount dd uu cc doc := le_refl _
      rw [docTripleCount, docTripleCount, lookup_setField_records_date,
        recordsOf_setField_records]
      rw [recordsOf, hl]
      cases (doc.lookup "date" == some (Val.str dd)) <;> simp
  | some v =>
      cases v with
      | prim p => exact le_refl _
      | vdict kvs => exact le_refl _
      | vlist xs =>
          rw [docTripleCount, docTripleCount, lookup_setField_records_date,
            recordsOf_setField_records]
          rw [recordsOf, hl]
          cases (doc.lookup "date" == some (Val.str dd)) <;>
            simp [List.filter_append]

theorem tripleSum_update_le (dd : String) (uu : Nat) (cc : String)
    (d' : String) (r : Rec) :
    ∀ (coll : List Doc) (nid : Nat),
      (coll.map (docTripleCount dd uu cc)).sum ≤
        (((InMemoryDB.update_one coll (dateQuery d') "records" r true
          nid).1).map (docTripleCount dd uu cc)).sum
  | [], nid => by
      simp [InMemoryDB.update_one, InMemoryDB.updateFirst, InMemoryDB.insert_one]
  | d0 :: ds, nid => by
      cases hm : InMemoryDB.docMatches (dateQuery d') d0
      · rw [InMemoryDB.update_one_cons_nomatch _ _ _ _ _ _ hm]
        simp only [List.map_cons, List.sum_cons]
        exact Nat.add_le_add_left (tripleSum_update_le dd uu cc d' r ds nid) _
      · rw [InMemoryDB.update_one_cons_match _ _ _ _ _ _ hm]
        simp only [List.map_cons, List.sum_cons]
        exact Nat.add_le_add_right (docTripleCount_applyPush_le dd uu cc d0 r) _

theorem tripleCount_pushRecord_le (db : DB) (d' : String) (r : Rec)
    (dd : String) (uu : Nat) (cc : String) :
    tripleCount db dd uu cc ≤ tripleCount (db.pushRecord d' r) dd uu cc :=
  tripleSum_update_le dd uu cc d' r db.attendance db.latest_id

theorem recordInColl_update (d : String) (r : Rec) :
    ∀ (coll : List Doc) (nid : Nat), coll.all recordsWF = true →
      ((InMemoryDB.update_one coll (dateQuery d) "records" r true
          nid).1).any
        (fun doc => doc.lookup "date" == some (Val.str d) &&
          decide (r ∈ recordsOf doc)) = true
  | [], nid, _ => by
      simp [InMemoryDB.update_one, InMemoryDB.updateFirst,
        InMemoryDB.insert_one, InMemoryDB.setField, dateQuery, recordsOf,
        List.lookup]
  | d0 :: ds, nid, hwf => by
      rw [List.all_cons, Bool.and_eq_true] at hwf
      obtain ⟨hwf0, hwftl⟩ := hwf
      cases hm : InMemoryDB.docMatches (dateQuery d) d0
      · rw [InMemoryDB.update_one_cons_nomatch _ _ _ _ _ _ hm]
        have ih := recordInColl_update d r ds nid hwftl
        simp only [List.any_cons, ih, Bool.or_true]
      · rw [InMemoryDB.update_one_cons_match _ _ _ _ _ _ hm]
        have hdate0 : (d0.lookup "date" == some (Val.str d)) = true := by
          rw [← InMemoryDB.docMatches_dateQuery]; exact hm
        rw [InMemoryDB.applyPush]
        cases hl : d0.lookup "records" with
        | none =>
            simp only [List.any_cons, lookup_setField_records_date,
              recordsOf_setField_records, hdate0, Bool.true_and,
              List.mem_singleton, decide_eq_true_eq]
            simp
        | some v =>
            cases v with
            | prim p => rw [recordsWF, hl] at hwf0; cases hwf0
            | vdict kvs => rw [recordsWF, hl] at hwf0; cases hwf0
            | vlist xs =>
                simp only [List.any_cons, lookup_setField_records_date,
                  recordsOf_setField_records, hdate0, Bool.true_and,
                  List.mem_append, List.mem_singleton, decide_eq_true_eq]
                simp

theorem recordIn_pushRecord (db : DB) (d : String) (r : Rec)
    (hwf : db.wf = true) :
    recordIn (db.pushRecord d r) d r = true :=
  recordInColl_update d r db.attendance db.latest_id hwf

theorem foldl_add_map {α : Type} (f : α → Nat) : ∀ (l : List α) (n : Nat),
    l.foldl (fun acc x => acc + f x) n = n + (l.map f).sum
  | [], n => by simp
  | x :: xs, n => by
      simp only [List.foldl_cons, List.map_cons, List.sum_cons,
        foldl_add_map f xs (n + f x)]
      omega

/-! ## Claim theorems -/

/-- Claim C4: a token issued for checkpoint C and date D verifies to the
payload {C, D} while its age is at most `TOKEN_VALIDITY_SECONDS`, and once
its age exceeds the TTL the marking endpoint answers the expired-token
error (`'QR Code has expired.'`, HTTP 400) without touching the store or
broadcasting anything.  (`now1` and `now2` are verification times at or
after issuance, inside and outside the TTL window.) -/
theorem token_ttl_verify_and_expiry (secret d cp : String) (t0 : Nat)
    (now1 now2 : Nat) (uid : Nat) (username : String) (db : DB)
    (ff pf ef : Bool)
    (hd : d.isEmpty = false) (hc : cp.isEmpty = false)
    (_h0 : t0 ≤ now1) (h1 : now1 - t0 ≤ TOKEN_VALIDITY_SECONDS)
    (h2 : now2 - t0 > TOKEN_VALIDITY_SECONDS) :
    handle_qr_request secret (some d) (some cp) t0 =
      some (dumps secret ⟨d, cp, t0⟩ t0) ∧
    loads secret TOKEN_VALIDITY_SECONDS now1 (dumps secret ⟨d, cp, t0⟩ t0) =
      .ok ⟨d, cp, t0⟩ ∧
    api_mark_attendance secret uid username
        (some (dumps secret ⟨d, cp, t0⟩ t0)) now2 db ff pf ef =
      ⟨⟨false, "QR Code has expired.", 400⟩, db, []⟩ := by
  refine ⟨by simp [handle_qr_request, hd, hc], ?_, ?_⟩
  · simp [loads, dumps, Nat.not_lt.mpr h1]
  · simp [api_mark_attendance, loads, dumps, h2]

/-- Claim C4 witness: a token for ("2025-01-10", "Period 1") issued at time
0 verifies at time 3 and is rejected as expired at time 9. -/
theorem token_ttl_verify_and_expiry_witness :
    handle_qr_request "k" (some "2025-01-10") (some "Period 1") 0 =
      some (dumps "k" ⟨"2025-01-10", "Period 1", 0⟩ 0) ∧
    loads "k" TOKEN_VALIDITY_SECONDS 3 (dumps "k" ⟨"2025-01-10", "Period 1", 0⟩ 0) =
      .ok ⟨"2025-01-10", "Period 1", 0⟩ ∧
    api_mark_attendance "k" 2 "student1"
        (some (dumps "k" ⟨"2025-01-10", "Period 1", 0⟩ 0)) 9 dbNoRecords
        false false false =
      ⟨⟨false, "QR Code has expired.", 400⟩, dbNoRecords, []⟩ :=
  token_ttl_verify_and_expiry "k" "2025-01-10" "Period 1" 0 3 9 2 "student1"
    dbNoRecords false false false (by decide) (by decide) (by decide)
    (by decide) (by decide)

/-- Claim C1 (failing execution): starting from a store with no record for
(2025-01-10, student 2, Period 1), the first token-path marking call
succeeds and appends one record — but the second identical call is NOT
rejected with the claimed 409 already-marked error: it succeeds again
(HTTP 200) and appends a second identical record.  The in-memory
`find_one` compares the stored `records` list against the
`{"$elemMatch": ...}` dict for equality, so the duplicate check never
matches. -/
theorem second_identical_mark_not_rejected :
    (api_mark_attendance "k" 2 "student1" (some tokPeriod1) 3 dbNoRecords
        false false false).response =
      ⟨true, "Attendance marked successfully!", 200⟩ ∧
    tripleCount (api_mark_attendance "k" 2 "student1" (some tokPeriod1) 3
        dbNoRecords false false false).db "2025-01-10" 2 "Period 1" = 1 ∧
    (api_mark_attendance "k" 2 "student1" (some tokPeriod1) 3
        (api_mark_attendance "k" 2 "student1" (some tokPeriod1) 3 dbNoRecords
          false false false).db false false false).response =
      ⟨true, "Attendance marked successfully!", 200⟩ ∧
    tripleCount (api_mark_attendance "k" 2 "student1" (some tokPeriod1) 3
        (api_mark_attendance "k" 2 "student1" (some tokPeriod1) 3 dbNoRecords
          false false false).db false false false).db
      "2025-01-10" 2 "Period 1" = 2 := by decide

/-- Claim C2 (failing execution): the at-most-one-record-per-triple
invariant is not maintained by sequential marking operations — two
sequential manual marks for the same (date, student, checkpoint) starting
from a duplicate-free store both succeed, leaving a day document with two
records for the triple. -/
theorem duplicate_triple_reachable :
    dbNoRecords.dupFree = true ∧
    (manual_mark "teacher" (some 2) (some "2025-01-10") (some "Period 1") 5
        dbNoRecords).response.success = true ∧
    (manual_mark "teacher" (some 2) (some "2025-01-10") (some "Period 1") 6
        (manual_mark "teacher" (some 2) (some "2025-01-10") (some "Period 1")
          5 dbNoRecords).db).response.success = true ∧
    (manual_mark "teacher" (some 2) (some "2025-01-10") (some "Period 1") 6
        (manual_mark "teacher" (some 2) (some "2025-01-10") (some "Period 1")
          5 dbNoRecords).db).db.dupFree = false := by decide

/-- Claim C5: a tampered token — any token whose MAC is not the signature
of its own payload and timestamp under the server secret — is rejected as
`'Invalid QR Code.'` (HTTP 400); the store is unchanged and nothing is
broadcast, so no attendance record is appended on that path. -/
theorem tampered_token_rejected (secret : String) (t : Token) (now : Nat)
    (uid : Nat) (username : String) (db : DB) (ff pf ef : Bool)
    (h : t.mac ≠ (secret, t.payload, t.signTime)) :
    api_mark_attendance secret uid username (some t) now db ff pf ef =
      ⟨⟨false, "Invalid QR Code.", 400⟩, db, []⟩ := by
  simp [api_mark_attendance, loads, h]

/-- Claim C5 witness: a token whose MAC was produced under secret `"kk"`
is rejected by the server holding secret `"k"`. -/
theorem tampered_token_rejected_witness :
    (⟨⟨"2025-01-10", "Period 1", 0⟩, 0,
        ("kk", ⟨"2025-01-10", "Period 1", 0⟩, 0)⟩ : Token).mac ≠
      ("k", (⟨⟨"2025-01-10", "Period 1", 0⟩, 0,
        ("kk", ⟨"2025-01-10", "Period 1", 0⟩, 0)⟩ : Token).payload,
       (⟨⟨"2025-01-10", "Period 1", 0⟩, 0,
        ("kk", ⟨"2025-01-10", "Period 1", 0⟩, 0)⟩ : Token).signTime) ∧
    api_mark_attendance "k" 2 "student1"
        (some ⟨⟨"2025-01-10", "Period 1", 0⟩, 0,
          ("kk", ⟨"2025-01-10", "Period 1", 0⟩, 0)⟩) 3 dbNoRecords
        false false false =
      ⟨⟨false, "Invalid QR Code.", 400⟩, dbNoRecords, []⟩ :=
  ⟨by decide,
   tampered_token_rejected "k" _ 3 2 "student1" dbNoRecords false false false
     (by decide)⟩

/-- Claim C6: for every student principal (any non-teacher role),
`student_stats` answers a percentage equal to the student's
attended-checkpoint-count divided by the total-possible-checkpoint-count,
times 100, rounded to 2 decimals, and 0 when the
total-possible-checkpoint-count is 0. -/
theorem stats_percentage_formula (role : String) (uid : Nat) (today : String)
    (db : DB) (h : role ≠ "teacher") :
    (student_stats role uid today db).percentageOf =
      some (specPercentage uid db) ∧
    (totalPossibleCheckpointCount db = 0 → specPercentage uid db = 0) := by
  refine ⟨?_, fun h0 => by simp [specPercentage, h0]⟩
  simp only [student_stats, beq_eq_false_iff_ne.mpr h, Bool.false_eq_true,
    if_false, InMemoryDB.find_nil_query,
    foldl_add_map (fun day => ((recordsOf day).filter (recordBelongsTo uid)).length),
    Nat.zero_add, StatsOut.percentageOf, Option.some_inj]
  by_cases htp : totalPossibleCheckpointCount db = 0
  · rw [specPercentage, if_pos htp]
    rw [totalPossibleCheckpointCount] at htp
    simp [htp]
  · rw [specPercentage, if_neg htp,
      if_pos (Nat.pos_of_ne_zero (by exact fun hc => htp hc))]
    rfl

/-- Claim C6 witness: for `student1` over a store holding exactly one of
their records on one day, the percentage is 1/4 of 100 = 25. -/
theorem stats_percentage_formula_witness :
    ("student" : String) ≠ "teacher" ∧
    (student_stats "student" 2 "2025-01-10" dbExisting).percentageOf =
      some (specPercentage 2 dbExisting) ∧
    specPercentage 2 dbExisting = 25 :=
  ⟨by decide,
   (stats_percentage_formula "student" 2 "2025-01-10" dbExisting
     (by decide)).1,
   by
     have h1 : attendedCheckpointCount 2 dbExisting = 1 := by decide
     have h2 : totalPossibleCheckpointCount dbExisting = 4 := by decide
     have hne : totalPossibleCheckpointCount dbExisting ≠ 0 := by rw [h2]; decide
     rw [specPercentage, if_neg hne, h1, h2]
     rw [show ((1:Nat):ℚ) / ((4:Nat):ℚ) * 100 = ((25:ℤ):ℚ) by norm_num]
     simp only [roundPy2, roundHalfEven]
     rw [show ((25:ℤ):ℚ) * 100 = ((2500:ℤ):ℚ) by norm_num]
     simp only [Int.floor_intCast]
     norm_num⟩

/-- Claim C7: appending a record through `update_one({"date": d},
{"$push": {"records": r}}, upsert=True)` creates the day document when no
document for that date exists — appended at the end of the collection, with
the record as the sole entry of its `records` list — and otherwise pushes
the record onto the existing day's record list (the first matching
document, in place, all other documents untouched); in both cases a
subsequent read of that date (`find_one({"date": d})`) returns a document
whose `records` list ends with the appended record.  `coll1`/`d1` cover the
day-absent case, `coll2`/`d2`/`doc` the day-present case. -/
theorem append_upsert_visibility
    (coll1 : List Doc) (d1 : String) (r1 : Rec) (nid1 : Nat)
    (coll2 : List Doc) (d2 : String) (r2 : Rec) (nid2 : Nat)
    (doc : Doc) (rs : List Rec)
    (h1 : InMemoryDB.find_one coll1 (dateQuery d1) = none)
    (h2 : InMemoryDB.find_one coll2 (dateQuery d2) = some doc)
    (hrec : doc.lookup "records" = some (Val.vlist rs)) :
    (InMemoryDB.update_one coll1 (dateQuery d1) "records" r1 true nid1 =
      (coll1 ++ [[("date", Val.str d1), ("records", Val.vlist [r1]),
        ("_id", Val.nat nid1)]], nid1 + 1)) ∧
    InMemoryDB.find_one
        (InMemoryDB.update_one coll1 (dateQuery d1) "records" r1 true nid1).1
        (dateQuery d1) =
      some [("date", Val.str d1), ("records", Val.vlist [r1]),
        ("_id", Val.nat nid1)] ∧
    (∃ pre post, coll2 = pre ++ doc :: post ∧
      (∀ x ∈ pre, InMemoryDB.docMatches (dateQuery d2) x = false) ∧
      InMemoryDB.update_one coll2 (dateQuery d2) "records" r2 true nid2 =
        (pre ++
          InMemoryDB.setField doc "records" (Val.vlist (rs ++ [r2])) :: post,
         nid2)) ∧
    InMemoryDB.find_one
        (InMemoryDB.update_one coll2 (dateQuery d2) "records" r2 true nid2).1
        (dateQuery d2) =
      some (InMemoryDB.setField doc "records" (Val.vlist (rs ++ [r2]))) ∧
    recordsOf (InMemoryDB.setField doc "records" (Val.vlist (rs ++ [r2]))) =
      rs ++ [r2] := by
  have hall1 : ∀ x ∈ coll1, InMemoryDB.docMatches (dateQuery d1) x = false :=
    fun x hx => Bool.eq_false_iff.mpr (List.find?_eq_none.mp h1 x hx)
  have hupd1 : InMemoryDB.updateFirst (dateQuery d1) "records" r1 coll1 = none :=
    InMemoryDB.updateFirst_eq_none _ _ _ coll1 hall1
  have hnew1 : InMemoryDB.update_one coll1 (dateQuery d1) "records" r1 true nid1 =
      (coll1 ++ [[("date", Val.str d1), ("records", Val.vlist [r1]),
        ("_id", Val.nat nid1)]], nid1 + 1) := by
    rw [InMemoryDB.update_one, hupd1]
    rfl
  obtain ⟨pre, post, hsplit, hpre, hdoc⟩ :=
    InMemoryDB.find_one_split (dateQuery d2) coll2 doc h2
  have happly : InMemoryDB.applyPush doc "records" r2 =
      InMemoryDB.setField doc "records" (Val.vlist (rs ++ [r2])) := by
    rw [InMemoryDB.applyPush, hrec]
  have hupd2 : InMemoryDB.updateFirst (dateQuery d2) "records" r2 coll2 =
      some (pre ++
        InMemoryDB.setField doc "records" (Val.vlist (rs ++ [r2])) :: post) := by
    rw [hsplit, InMemoryDB.updateFirst_append_first _ _ _ doc post hdoc pre hpre,
      happly]
  have hnew2 : InMemoryDB.update_one coll2 (dateQuery d2) "records" r2 true nid2 =
      (pre ++
        InMemoryDB.setField doc "records" (Val.vlist (rs ++ [r2])) :: post,
       nid2) := by
    rw [InMemoryDB.update_one, hupd2]
  have hsetdate :
      (InMemoryDB.setField doc "records" (Val.vlist (rs ++ [r2]))).lookup "date" =
        doc.lookup "date" := by
    rw [InMemoryDB.lookup_setField]
    rfl
  have hmatch2 : InMemoryDB.docMatches (dateQuery d2)
      (InMemoryDB.setField doc "records" (Val.vlist (rs ++ [r2]))) = true := by
    rw [InMemoryDB.docMatches_dateQuery, hsetdate,
      ← InMemoryDB.docMatches_dateQuery]
    exact hdoc
  refine ⟨hnew1, ?_, ⟨pre, post, hsplit, hpre, hnew2⟩, ?_, ?_⟩
  · rw [hnew1, InMemoryDB.find_one_append, h1, Option.none_or,
      InMemoryDB.find_one, List.find?_cons_of_pos _
        (by simp [InMemoryDB.docMatches_dateQuery, List.lookup])]
  · rw [hnew2]
    show InMemoryDB.find_one (pre ++ _ :: post) (dateQuery d2) = _
    rw [InMemoryDB.find_one_append]
    have hprenone : InMemoryDB.find_one pre (dateQuery d2) = none :=
      List.find?_eq_none.mpr (fun x hx h => by rw [hpre x hx] at h; cases h)
    rw [hprenone, Option.none_or, InMemoryDB.find_one,
      List.find?_cons_of_pos _ hmatch2]
  · rw [recordsOf, InMemoryDB.lookup_setField]
    rfl

/-- Claim C7 witness: appending to an empty collection creates the day
document; appending to a collection holding a day document for the date
pushes onto its list; the record is visible to the subsequent read in both
cases. -/
theorem append_upsert_visibility_witness :
    InMemoryDB.find_one [] (dateQuery "2025-01-10") = none ∧
    InMemoryDB.find_one [dayDocP1] (dateQuery "2025-01-10") = some dayDocP1 ∧
    dayDocP1.lookup "records" = some (Val.vlist [recP1]) ∧
    (InMemoryDB.update_one [] (dateQuery "2025-01-10") "records" recP1 true 7 =
      ([[("date", Val.str "2025-01-10"), ("records", Val.vlist [recP1]),
        ("_id", Val.nat 7)]], 8)) ∧
    recordsOf (InMemoryDB.setField dayDocP1 "records"
        (Val.vlist ([recP1] ++ [recP1]))) = [recP1] ++ [recP1] :=
  ⟨by decide, by decide, by decide,
   (append_upsert_visibility [] "2025-01-10" recP1 7 [dayDocP1] "2025-01-10"
     recP1 8 dayDocP1 [recP1] (by decide) (by decide) (by decide)).1,
   (append_upsert_visibility [] "2025-01-10" recP1 7 [dayDocP1] "2025-01-10"
     recP1 8 dayDocP1 [recP1] (by decide) (by decide)
     (by decide)).2.2.2.2⟩

/-- Claim C9: manual marking terminates with `Unauthorized` (403) for any
non-teacher caller and with `Student not found` (404) for a teacher naming
an unknown student, leaving the store unchanged and broadcasting nothing in
both cases; a teacher caller naming an existing student proceeds exactly to
the post-validation body (duplicate check onward).  The first input tuple
covers the non-teacher case, the second an absent student, the third a
present student. -/
theorem manual_mark_validation
    (role : String) (sid1 : Option Nat) (d1 cp1 : Option String) (now1 : Nat)
    (db1 : DB)
    (sid2 : Nat) (d2 cp2 : String) (now2 : Nat) (db2 : DB)
    (sid3 : Nat) (d3 cp3 : String) (now3 : Nat) (db3 : DB) (sd : Doc)
    (h1 : role ≠ "teacher")
    (hd2 : d2.isEmpty = false) (hc2 : cp2.isEmpty = false)
    (h2 : InMemoryDB.find_one db2.users [("_id", Val.nat sid2)] = none)
    (hd3 : d3.isEmpty = false) (hc3 : cp3.isEmpty = false)
    (h3 : InMemoryDB.find_one db3.users [("_id", Val.nat sid3)] = some sd) :
    manual_mark role sid1 d1 cp1 now1 db1 =
      ⟨⟨false, "Unauthorized", 403⟩, db1, []⟩ ∧
    manual_mark "teacher" (some sid2) (some d2) (some cp2) now2 db2 =
      ⟨⟨false, "Student not found", 404⟩, db2, []⟩ ∧
    manual_mark "teacher" (some sid3) (some d3) (some cp3) now3 db3 =
      manual_mark_core sid3 sd d3 cp3 now3 db3 := by
  refine ⟨?_, ?_, ?_⟩
  · simp [manual_mark, h1]
  · simp [manual_mark, hd2, hc2, h2]
  · simp [manual_mark, hd3, hc3, h3]

/-- Claim C9 witness: a student caller is rejected 403; a teacher naming
the unknown id 9 gets 404; a teacher naming the registered student 2
reaches the post-validation body. -/
theorem manual_mark_validation_witness :
    ("student" : String) ≠ "teacher" ∧
    manual_mark "student" (some 2) (some "2025-01-10") (some "Period 1") 0
        dbNoRecords =
      ⟨⟨false, "Unauthorized", 403⟩, dbNoRecords, []⟩ ∧
    manual_mark "teacher" (some 9) (some "2025-01-10") (some "Period 1") 0
        dbNoRecords =
      ⟨⟨false, "Student not found", 404⟩, dbNoRecords, []⟩ ∧
    manual_mark "teacher" (some 2) (some "2025-01-10") (some "Period 1") 0
        dbNoRecords =
      manual_mark_core 2 studentOneDoc "2025-01-10" "Period 1" 0 dbNoRecords :=
  ⟨by decide,
   (manual_mark_validation "student" (some 2) (some "2025-01-10")
     (some "Period 1") 0 dbNoRecords 9 "2025-01-10" "Period 1" 0 dbNoRecords
     2 "2025-01-10" "Period 1" 0 dbNoRecords studentOneDoc (by decide)
     (by decide) (by decide) (by decide) (by decide) (by decide)
     (by decide)).1,
   (manual_mark_validation "student" (some 2) (some "2025-01-10")
     (some "Period 1") 0 dbNoRecords 9 "2025-01-10" "Period 1" 0 dbNoRecords
     2 "2025-01-10" "Period 1" 0 dbNoRecords studentOneDoc (by decide)
     (by decide) (by decide) (by decide) (by decide) (by decide)
     (by decide)).2⟩

/-- Claim C10: in the token endpoint, once the token decodes successfully
every exception — a store-driver failure on the duplicate read, a
store-driver failure on the append, a broadcast failure — is answered with
the invalid-token error (`'Invalid QR Code.'`, HTTP 400); the only failures
answered differently are the missing-token check (`'Token is missing.'`)
and signature expiry (`'QR Code has expired.'`). -/
theorem token_endpoint_exception_dispatch
    (secret : String) (uid : Nat) (username : String) (t : Token) (now : Nat)
    (db : DB) (p : Payload) (pf ef ff' pf' ef' : Bool)
    (t2 : Token) (now2 : Nat)
    (hload : loads secret TOKEN_VALIDITY_SECONDS now t = .ok p)
    (hdup : InMemoryDB.find_one db.attendance
      (dupQuery p.date uid p.checkpoint) = none)
    (hexp : loads secret TOKEN_VALIDITY_SECONDS now2 t2 =
      .error .signatureExpired) :
    api_mark_attendance secret uid username (some t) now db true pf ef =
      ⟨⟨false, "Invalid QR Code.", 400⟩, db, []⟩ ∧
    api_mark_attendance secret uid username (some t) now db false true ef =
      ⟨⟨false, "Invalid QR Code.", 400⟩, db, []⟩ ∧
    ((api_mark_attendance secret uid username (some t) now db false false
        true).response = ⟨false, "Invalid QR Code.", 400⟩ ∧
     (api_mark_attendance secret uid username (some t) now db false false
        true).events = []) ∧
    api_mark_attendance secret uid username none now db ff' pf' ef' =
      ⟨⟨false, "Token is missing.", 400⟩, db, []⟩ ∧
    api_mark_attendance secret uid username (some t2) now2 db ff' pf' ef' =
      ⟨⟨false, "QR Code has expired.", 400⟩, db, []⟩ := by
  refine ⟨?_, ?_, ⟨?_, ?_⟩, rfl, ?_⟩
  · simp [api_mark_attendance, hload]
  · simp [api_mark_attendance, hload, hdup]
  · simp [api_mark_attendance, hload, hdup]
  · simp [api_mark_attendance, hload, hdup]
  · simp [api_mark_attendance, hexp]

/-- Claim C10 witness: with a genuine fresh token over an empty store, each
fault flag produces `'Invalid QR Code.'`; a missing token and an expired
token produce their own messages. -/
theorem token_endpoint_exception_dispatch_witness :
    loads "k" TOKEN_VALIDITY_SECONDS 3 tokPeriod1 =
      .ok ⟨"2025-01-10", "Period 1", 0⟩ ∧
    api_mark_attendance "k" 2 "student1" (some tokPeriod1) 3 dbNoRecords
        true false false =
      ⟨⟨false, "Invalid QR Code.", 400⟩, dbNoRecords, []⟩ ∧
    api_mark_attendance "k" 2 "student1" (some tokPeriod1) 3 dbNoRecords
        false true false =
      ⟨⟨false, "Invalid QR Code.", 400⟩, dbNoRecords, []⟩ ∧
    (api_mark_attendance "k" 2 "student1" (some tokPeriod1) 3 dbNoRecords
        false false true).response = ⟨false, "Invalid QR Code.", 400⟩ ∧
    api_mark_attendance "k" 2 "student1" none 3 dbNoRecords false false
        false =
      ⟨⟨false, "Token is missing.", 400⟩, dbNoRecords, []⟩ ∧
    api_mark_attendance "k" 2 "student1" (some tokPeriod1) 9 dbNoRecords
        false false false =
      ⟨⟨false, "QR Code has expired.", 400⟩, dbNoRecords, []⟩ := by
  have h := token_endpoint_exception_dispatch "k" 2 "student1" tokPeriod1 3
    dbNoRecords ⟨"2025-01-10", "Period 1", 0⟩ false false false false false
    tokPeriod1 9 (by rfl) (by decide) (by rfl)
  exact ⟨by rfl, h.1, h.2.1, h.2.2.1.1, h.2.2.2.1, h.2.2.2.2⟩

/-- Claim C8: a `student_checked_in` event is delivered only from a state
in which the corresponding record is already committed to the store
(conjunct 1), never for a rejected submission (conjunct 2), and a failure
during notification leaves the store exactly as the successful run would —
the already-appended record is not removed — while delivering no event
(conjuncts 3 and 4, comparing the broadcast-failing run against the
broadcast-succeeding run). -/
theorem notify_only_after_commit
    (secret : String) (uid : Nat) (username : String) (tok : Option Token)
    (now : Nat) (db : DB) (ff pf ef : Bool) (hwf : db.wf = true) :
    (∀ ev ∈ (api_mark_attendance secret uid username tok now db ff pf
        ef).events,
      (api_mark_attendance secret uid username tok now db ff pf
        ef).response.success = true ∧
      recordIn (api_mark_attendance secret uid username tok now db ff pf
          ef).db ev.date
        (newRecordDoc uid username now ev.checkpoint "QR") = true) ∧
    ((api_mark_attendance secret uid username tok now db ff pf
        ef).response.success = false →
      (api_mark_attendance secret uid username tok now db ff pf ef).events =
        []) ∧
    (api_mark_attendance secret uid username tok now db ff pf true).db =
      (api_mark_attendance secret uid username tok now db ff pf false).db ∧
    (api_mark_attendance secret uid username tok now db ff pf true).events =
      [] := by
  rcases tok with _ | t
  · simp [api_mark_attendance]
  · cases hl : loads secret TOKEN_VALIDITY_SECONDS now t with
    | error e => cases e <;> simp [api_mark_attendance, hl]
    | ok p =>
        cases ff
        · cases hdup : InMemoryDB.find_one db.attendance
              (dupQuery p.date uid p.checkpoint) with
          | some x => simp [api_mark_attendance, hl, hdup]
          | none =>
              cases pf
              · have hrec := recordIn_pushRecord db p.date
                  (newRecordDoc uid username now p.checkpoint "QR") hwf
                cases ef <;> simp [api_mark_attendance, hl, hdup, mkEvent, hrec]
              · simp [api_mark_attendance, hl, hdup]
        · simp [api_mark_attendance, hl]

/-- Claim C8 witness: on a successful concrete run the event is delivered
with its record already committed; the broadcast-failing run keeps the same
store and delivers nothing. -/
theorem notify_only_after_commit_witness :
    dbNoRecords.wf = true ∧
    (api_mark_attendance "k" 2 "student1" (some tokPeriod1) 3 dbNoRecords
        false false false).response.success = true ∧
    recordIn (api_mark_attendance "k" 2 "student1" (some tokPeriod1) 3
        dbNoRecords false false false).db "2025-01-10"
      (newRecordDoc 2 "student1" 3 "Period 1" "QR") = true ∧
    (api_mark_attendance "k" 2 "student1" (some tokPeriod1) 3 dbNoRecords
        false false true).db =
      (api_mark_attendance "k" 2 "student1" (some tokPeriod1) 3 dbNoRecords
        false false false).db ∧
    (api_mark_attendance "k" 2 "student1" (some tokPeriod1) 3 dbNoRecords
        false false true).events = [] := by
  have h := notify_only_after_commit "k" 2 "student1" (some tokPeriod1) 3
    dbNoRecords false false false (by decide)
  refine ⟨by decide, ?_, ?_, h.2.2.1, h.2.2.2⟩
  · exact (h.1 (mkEvent 2 "student1" 3 "Period 1" "QR" "2025-01-10")
      (by decide)).1
  · have hc := (h.1 (mkEvent 2 "student1" 3 "Period 1" "QR" "2025-01-10")
      (by decide)).2
    simpa [mkEvent] using hc

theorem bulk_loop_partition (d cp : String) (now : Nat) :
    ∀ (ids : List Nat) (acc : DB × List String × List String × List Event),
      ((ids.foldl (bulkStep d cp now) acc).2.1.length +
        (ids.foldl (bulkStep d cp now) acc).2.2.1.length) =
      (acc.2.1.length + acc.2.2.1.length) + ids.length
  | [], acc => by simp
  | sid :: ids, acc => by
      rw [List.foldl_cons,
        bulk_loop_partition d cp now ids (bulkStep d cp now acc sid)]
      obtain ⟨db, upd, skp, evs⟩ := acc
      cases hu : InMemoryDB.find_one db.users [("_id", Val.nat sid)] with
      | none => simp [bulkStep, hu]; omega
      | some sd =>
          cases hd : InMemoryDB.find_one db.attendance (dupQuery d sid cp) with
          | some x => simp [bulkStep, hu, hd]; omega
          | none => simp [bulkStep, hu, hd]; omega

theorem bulk_loop_monotone (d cp : String) (now : Nat)
    (dd : String) (uu : Nat) (cc : String) :
    ∀ (ids : List Nat) (acc : DB × List String × List String × List Event),
      tripleCount acc.1 dd uu cc ≤
        tripleCount (ids.foldl (bulkStep d cp now) acc).1 dd uu cc
  | [], acc => le_refl _
  | sid :: ids, acc => by
      rw [List.foldl_cons]
      refine le_trans ?_
        (bulk_loop_monotone d cp now dd uu cc ids (bulkStep d cp now acc sid))
      obtain ⟨db, upd, skp, evs⟩ := acc
      cases hu : InMemoryDB.find_one db.users [("_id", Val.nat sid)] with
      | none => simp [bulkStep, hu]
      | some sd =>
          cases hd : InMemoryDB.find_one db.attendance (dupQuery d sid cp) with
          | some x => simp [bulkStep, hu, hd]
          | none =>
              simp only [bulkStep, hu, hd]
              exact tripleCount_pushRecord_le db d _ dd uu cc

/-- Claim C3 counterexample: bulk-marking the single entry for student 2 on
a date/checkpoint where that student's record already exists does NOT
remove the record — it is still stored afterwards (and the run even appends
a duplicate and reports the student in `updated`, the in-memory duplicate
check being inert), refuting "removes exactly that record". -/
theorem bulk_existing_entry_not_removed :
    recordIn dbExisting "2025-01-10" recP1 = true ∧
    (manual_bulk_mark "teacher" [2] (some "2025-01-10") (some "Period 1") 9
        dbExisting).success = true ∧
    recordIn (manual_bulk_mark "teacher" [2] (some "2025-01-10")
        (some "Period 1") 9 dbExisting).db "2025-01-10" recP1 = true ∧
    tripleCount (manual_bulk_mark "teacher" [2] (some "2025-01-10")
        (some "Period 1") 9 dbExisting).db "2025-01-10" 2 "Period 1" = 2 ∧
    (manual_bulk_mark "teacher" [2] (some "2025-01-10") (some "Period 1") 9
        dbExisting).updated = ["student1"] ∧
    (manual_bulk_mark "teacher" [2] (some "2025-01-10") (some "Period 1") 9
        dbExisting).skipped = [] := by decide

/-- Claim C3 as amended: the bulk marking operation accepts a list of
student ids (there is no per-entry present flag) with one date and
checkpoint; it never removes a record — every per-triple record count is
monotone across the call — and every entry's outcome is accumulated into
exactly one of the returned `updated` or `skipped` lists (unknown ids and
ids whose duplicate check finds a record are skipped, the rest are appended
and reported updated). -/
theorem bulk_mark_append_only (ids : List Nat) (d cp : String) (now : Nat)
    (db : DB) (hne : ids.isEmpty = false) (hd : d.isEmpty = false)
    (hc : cp.isEmpty = false) :
    (manual_bulk_mark "teacher" ids (some d) (some cp) now db).success =
      true ∧
    ((manual_bulk_mark "teacher" ids (some d) (some cp) now
        db).updated.length +
      (manual_bulk_mark "teacher" ids (some d) (some cp) now
        db).skipped.length) = ids.length ∧
    ∀ dd uu cc, tripleCount db dd uu cc ≤
      tripleCount (manual_bulk_mark "teacher" ids (some d) (some cp) now
        db).db dd uu cc := by
  have hres : manual_bulk_mark "teacher" ids (some d) (some cp) now db =
      ⟨true, "", 200, (ids.foldl (bulkStep d cp now) (db, [], [], [])).2.1,
       (ids.foldl (bulkStep d cp now) (db, [], [], [])).2.2.1,
       (ids.foldl (bulkStep d cp now) (db, [], [], [])).1,
       (ids.foldl (bulkStep d cp now) (db, [], [], [])).2.2.2⟩ := by
    rw [manual_bulk_mark]
    simp [hne, hd, hc]
  rw [hres]
  refine ⟨rfl, ?_, ?_⟩
  · have hp := bulk_loop_partition d cp now ids (db, [], [], [])
    simpa using hp
  · intro dd uu cc
    exact bulk_loop_monotone d cp now dd uu cc ids (db, [], [], [])

/-- Claim C3 amended-claim witness: the single-entry bulk call on the store
with an existing record keeps all counts monotone and yields one outcome
for its one entry. -/
theorem bulk_mark_append_only_witness :
    ([2] : List Nat).isEmpty = false ∧
    (manual_bulk_mark "teacher" [2] (some "2025-01-10") (some "Period 1") 9
        dbExisting).success = true ∧
    ((manual_bulk_mark "teacher" [2] (some "2025-01-10") (some "Period 1") 9
        dbExisting).updated.length +
      (manual_bulk_mark "teacher" [2] (some "2025-01-10") (some "Period 1")
        9 dbExisting).skipped.length) = 1 ∧
    tripleCount dbExisting "2025-01-10" 2 "Period 1" ≤
      tripleCount (manual_bulk_mark "teacher" [2] (some "2025-01-10")
        (some "Period 1") 9 dbExisting).db "2025-01-10" 2 "Period 1" := by
  have h := bulk_mark_append_only [2] "2025-01-10" "Period 1" 9 dbExisting
    (by decide) (by decide) (by decide)
  exact ⟨by decide, h.1, h.2.1, h.2.2 "2025-01-10" 2 "Period 1"⟩

end SIH

